import Mathlib

/-!
Verification development for the openid-connect-demo repository.

The definitions below are shallow embeddings of the JavaScript sources:

* `src/packages/auth-service/index.js` — combined OIDC provider + client
  (the `/client/auth`, `/client/callback` and `/api/token` handlers, the
  `pkceStorage` and `tokenStorage` maps, `findAccount.claims`, and the
  `/interaction/:uid` login POST handler);
* `src/packages/auth-service/config.js` (second document) and
  `src/packages/admin-backend/index.js` — the `validateJWT` middleware with
  its `usedTokens` replay guard;
* `src/packages/vue-auth-client/src/interceptors/setup.js` (second document)
  — the standalone client, whose `/auth` and `/callback` handlers share the
  control flow embedded here.

JavaScript `Map` objects are embedded as association lists with first-match
lookup; string truthiness (`undefined` and `''` are falsy) is made explicit
via `jsTruthy`/`jsOr`.  External library calls (OIDC discovery, the token
exchange, base64/JSON decoding of a JWT segment, `jwtVerify`) are
boundaries of the embedded code and enter as explicit oracle parameters:
the embedded control flow branches on their outcome exactly where the
source does.
-/

namespace OidcDemo

/-- JavaScript truthiness of an optional string: `undefined` and the empty
string are falsy, every other string is truthy. -/
def jsTruthy : Option String → Bool
  | none => false
  | some s => !s.isEmpty

/-- JavaScript `a || dflt` for an optional string `a`. -/
def jsOr (a : Option String) (dflt : String) : String :=
  match a with
  | none => dflt
  | some s => if s.isEmpty then dflt else s

/-- JavaScript `a || b` where both operands are optional strings
(`tokenSet.id_token || tokenSet.access_token`). -/
def jsOrOpt (a b : Option String) : Option String :=
  if jsTruthy a then a else b

/-- JavaScript `x || null` for an optional string: collapses a falsy value
to `none`. -/
def jsOrNull (a : Option String) : Option String :=
  if jsTruthy a then a else none

/-- `s.startsWith(p)` on JavaScript strings, computed over character
lists. -/
def jsStartsWith (s p : String) : Bool :=
  s.data.take p.data.length == p.data

/-- `s.split(sep)` on JavaScript strings for a one-character separator,
computed over character lists (`''.split(sep)` yields `['']`). -/
def jsSplitChar (sep : Char) (l : List Char) : List (List Char) :=
  match l with
  | [] => [[]]
  | x :: xs =>
    let rest := jsSplitChar sep xs
    if x == sep then [] :: rest
    else
      match rest with
      | [] => [[x]]
      | r :: rs => (x :: r) :: rs

/-- A JavaScript `Map` keyed by strings, embedded as an association list
with first-match lookup. -/
abbrev AList (α : Type) := List (String × α)

/-- `map.get(k)`. -/
def mapGet {α : Type} : AList α → String → Option α
  | [], _ => none
  | p :: rest, k => if p.1 == k then some p.2 else mapGet rest k

/-- `map.set(k, v)`: replaces the value in place when the key is present
(JavaScript `Map.set` semantics, silently overwriting), appends otherwise. -/
def mapSet {α : Type} : AList α → String → α → AList α
  | [], k, v => [(k, v)]
  | p :: rest, k, v => if p.1 == k then (k, v) :: rest else p :: mapSet rest k v

/-- `map.delete(k)`. -/
def mapDelete {α : Type} : AList α → String → AList α
  | [], _ => []
  | p :: rest, k => if p.1 == k then mapDelete rest k else p :: mapDelete rest k

theorem mapGet_mapDelete_self {α : Type} (m : AList α) (k : String) :
    mapGet (mapDelete m k) k = none := by
  induction m with
  | nil => rfl
  | cons p rest ih =>
    by_cases h : p.1 == k
    · simp [mapDelete, h, ih]
    · simp [mapDelete, h, mapGet, ih]

theorem mapGet_mapSet_self {α : Type} (m : AList α) (k : String) (v : α) :
    mapGet (mapSet m k v) k = some v := by
  induction m with
  | nil => simp [mapSet, mapGet]
  | cons p rest ih =>
    by_cases h : p.1 == k
    · simp [mapSet, h, mapGet]
    · simp [mapSet, h, mapGet, ih]

/-! ## Correlation store (`pkceStorage`) and the client callback handler

`auth-service/index.js` lines 340-346 declare `pkceStorage` and
`tokenStorage` as bare `new Map()`s.  A `pkceStorage` value is the object
`{ codeVerifier, nonce, redirectUrl, clientId }` stored by `/client/auth`
(line 384); note that it carries no creation timestamp. -/

structure PkceEntry where
  codeVerifier : String
  nonce : String
  redirectUrl : String
  clientId : String
deriving DecidableEq, Repr

/-- The claims object returned by `tokenSet.claims()`; only `sub` is
inspected by the callback handler (`!claims || !claims.sub`). -/
structure TokenClaims where
  sub : Option String
deriving DecidableEq, Repr

/-- The token set returned by the authority's token endpoint on a
successful exchange.  `claims = none` embeds a `claims()` result that is
itself null/undefined. -/
structure TokenSet where
  id_token : Option String
  access_token : Option String
  claims : Option TokenClaims
deriving DecidableEq, Repr

/-- Outcome of `await client.callback(...)` — the external token-exchange
call.  `failure msg` embeds a thrown error with message `msg`; it also
covers a failing `getOidcClient`/`Issuer.discover` call, which the same
`catch` block handles. -/
inductive ExchangeResult where
  | failure (msg : String)
  | success (ts : TokenSet)
deriving DecidableEq, Repr

/-- The query parameters of a callback request. -/
structure CallbackQuery where
  state : Option String
  error : Option String
  error_description : Option String
  code : Option String
deriving DecidableEq, Repr

/-- Responses of the `/client/callback` handler, one constructor per
source branch.  The first four render distinct 400 pages; `exchangeError`
and `missingSubject` render the generic 500 catch page with the thrown
message (`missingSubject` throws the fixed message `No sub claim in
token`); `redirectWithToken` is the success redirect with the raw token
appended to the target URL (`auth-service/index.js` lines 496-501). -/
inductive CallbackOutcome where
  | missingState
  | unknownOrExpiredState
  | authorityError (error description : String)
  | missingCode
  | exchangeError (msg : String)
  | missingSubject
  | redirectWithToken (redirectUrl : String) (token : Option String)
deriving DecidableEq, Repr

/-- `tokenSet.id_token || tokenSet.access_token` (line 496). -/
def tsToken (ts : TokenSet) : Option String :=
  jsOrOpt ts.id_token ts.access_token

/-- Every failure page of the callback handler carries a try-again link
back to the auth-begin endpoint (each error template in lines 404-521
contains an anchor to `/client/auth`). -/
def hasTryAgainLink : CallbackOutcome → Bool
  | .redirectWithToken _ _ => false
  | _ => true

/-- Result of the synchronous prefix of the callback handler: the checks
from the top of the handler down to the `code` check (lines 408-462).
This prefix runs without any `await`, so it is one atomic block; the
remainder of the handler (client discovery, the exchange, the delete at
line 479 and the claims check) runs after suspension points. -/
inductive CbPrefixResult where
  | halted (o : CallbackOutcome)
  | proceed (entry : PkceEntry)
deriving DecidableEq, Repr

/-- Synchronous prefix of `/client/callback` (lines 408-462): state
presence check, `pkceStorage.get`, authority `error` check (which deletes),
`code` presence check (which deletes).  Note that the `get` itself does
not delete the entry. -/
def cbPrefix (store : AList PkceEntry) (q : CallbackQuery) :
    CbPrefixResult × AList PkceEntry :=
  if !jsTruthy q.state then (.halted .missingState, store)
  else
    let s := jsOr q.state ""
    match mapGet store s with
    | none => (.halted .unknownOrExpiredState, store)
    | some entry =>
      if jsTruthy q.error then
        (.halted (.authorityError (jsOr q.error "") (jsOr q.error_description "No description")),
         mapDelete store s)
      else if !jsTruthy q.code then
        (.halted .missingCode, mapDelete store s)
      else
        (.proceed entry, store)

/-- Remainder of `/client/callback` (lines 464-520): the exchange, the
`pkceStorage.delete` at line 479, the `sub` claims check (line 484, whose
throw is caught by the handler's catch block), and the success redirect.
A thrown exchange error reaches the catch block, which deletes the entry
(lines 506-508) and renders the generic error page. -/
def cbFinish (store : AList PkceEntry) (q : CallbackQuery) (exch : ExchangeResult)
    (entry : PkceEntry) : CallbackOutcome × AList PkceEntry :=
  let s := jsOr q.state ""
  match exch with
  | .failure msg => (.exchangeError msg, mapDelete store s)
  | .success ts =>
    let store1 := mapDelete store s
    match ts.claims with
    | none => (.missingSubject, store1)
    | some c =>
      if !jsTruthy c.sub then (.missingSubject, store1)
      else (.redirectWithToken entry.redirectUrl (tsToken ts), store1)

/-- The full `/client/callback` handler run sequentially (one request at a
time): the synchronous prefix followed by the exchange remainder. -/
def clientCallback (store : AList PkceEntry) (q : CallbackQuery)
    (exch : ExchangeResult) : CallbackOutcome × AList PkceEntry :=
  match cbPrefix store q with
  | (.halted o, st) => (o, st)
  | (.proceed entry, st) => cbFinish st q exch entry

/-! ## Interleaved execution of two concurrent callback requests

Between the synchronous prefix (`pkceStorage.get` and the error/code
checks) and the `pkceStorage.delete` at line 479 the handler awaits
`getOidcClient` (an `Issuer.discover` network call) and the token
exchange; the Node event loop runs other requests at those suspension
points.  Each in-flight request is therefore modelled as a thread with a
program counter that advances over the two atomic blocks. -/

inductive ThreadPC where
  | start
  | ready (entry : PkceEntry)
  | done (o : CallbackOutcome)
deriving DecidableEq, Repr

structure CbThread where
  q : CallbackQuery
  exch : ExchangeResult
  pc : ThreadPC
deriving DecidableEq, Repr

structure CbSystem where
  store : AList PkceEntry
  threads : List CbThread
deriving DecidableEq, Repr

/-- Run one atomic block of thread `i` against the shared `pkceStorage`. -/
def cbSysStep (sys : CbSystem) (i : Nat) : CbSystem :=
  match sys.threads.get? i with
  | none => sys
  | some t =>
    match t.pc with
    | .start =>
      match cbPrefix sys.store t.q with
      | (.halted o, st) =>
        { store := st, threads := sys.threads.set i { t with pc := .done o } }
      | (.proceed entry, st) =>
        { store := st, threads := sys.threads.set i { t with pc := .ready entry } }
    | .ready entry =>
      let (o, st) := cbFinish sys.store t.q t.exch entry
      { store := st, threads := sys.threads.set i { t with pc := .done o } }
    | .done _ => sys

/-- Run a schedule (a list of thread indices) from a system state. -/
def cbRun (sched : List Nat) (sys : CbSystem) : CbSystem :=
  sched.foldl cbSysStep sys

/-- Number of threads that finished on the success redirect. -/
def cbSuccessCount (sys : CbSystem) : Nat :=
  (sys.threads.filter (fun t =>
    match t.pc with
    | .done (.redirectWithToken _ _) => true
    | _ => false)).length

/-! ## The combined provider+client service as a transition system

`auth-service/index.js` keeps two module-level maps, `pkceStorage`
(line 342) and `tokenStorage` (line 346).  The handlers that touch them
are `/client/auth` (writes `pkceStorage`), `/client/callback` (reads and
deletes `pkceStorage`; on success it appends the raw token to the redirect
URL and never touches `tokenStorage`), and `/api/token` (reads
`tokenStorage`).  The module registers no `setInterval`/`setTimeout` on
either map, so the passage of time (`tick`) leaves both maps unchanged. -/

structure Application where
  client_id : String
  name : String
  secret : String
  redirect_url : String
deriving DecidableEq, Repr

/-- The `applications` array of `auth-service/index.js` lines 16-35. -/
def applications : List Application :=
  [ { client_id := "demo-client", name := "Demo Application",
      secret := "demo-secret", redirect_url := "http://localhost:3002/" },
    { client_id := "app2", name := "Application 2",
      secret := "app2-secret", redirect_url := "http://localhost:3001/" },
    { client_id := "admin-ui", name := "Admin UI",
      secret := "admin-ui-secret", redirect_url := "http://localhost:3002/" } ]

/-- `clientRedirectUrls` built from `applications` (lines 38-41). -/
def clientRedirectUrls : AList String :=
  applications.map (fun a => (a.client_id, a.redirect_url))

inductive AuthBeginOutcome where
  | redirect (clientId state : String)
  | serverError
deriving DecidableEq, Repr

/-- The `/client/auth` handler (lines 367-401).  `clientIdQ` is the
`client_id` query parameter (`req.query.client_id || 'demo-client'`);
`cv`, `nonce` and `state` stand for the values produced by the random
generators.  `getOidcClient` throws when the client id is not registered,
reaching the catch block before any store write; otherwise the handler
stores `{ codeVerifier, nonce, redirectUrl, clientId }` under `state` with
`Map.set`, which silently overwrites any entry already present. -/
def clientAuthBegin (store : AList PkceEntry) (clientIdQ : Option String)
    (cv nonce state : String) : AuthBeginOutcome × AList PkceEntry :=
  let clientId := jsOr clientIdQ "demo-client"
  if (applications.find? (fun a => a.client_id == clientId)).isNone then
    (.serverError, store)
  else
    let redirectUrl := jsOr (mapGet clientRedirectUrls clientId) "http://localhost:3001/"
    (.redirect clientId state,
     mapSet store state
       { codeVerifier := cv, nonce := nonce, redirectUrl := redirectUrl, clientId := clientId })

/-- Module state of the combined service: the two maps and a clock. -/
structure SvcState where
  pkce : AList PkceEntry
  tokens : AList TokenSet
  now : Nat
deriving DecidableEq, Repr

/-- `pkceStorage` and `tokenStorage` both start as empty `new Map()`s. -/
def initSvc : SvcState := { pkce := [], tokens := [], now := 0 }

/-- One externally triggered event of the combined service.  `tick ms`
is the passage of `ms` milliseconds with no request arriving. -/
inductive SvcOp where
  | authBegin (clientIdQ : Option String) (cv nonce state : String)
  | callback (q : CallbackQuery) (exch : ExchangeResult)
  | apiToken (session : Option String)
  | tick (ms : Nat)
deriving DecidableEq, Repr

/-- State transition of the combined service.  `apiToken` is read-only;
no operation writes `tokenStorage`, and no timer is registered on either
map, so `tick` only advances the clock. -/
def svcStep (st : SvcState) : SvcOp → SvcState
  | .authBegin cid cv nonce state =>
    { st with pkce := (clientAuthBegin st.pkce cid cv nonce state).2 }
  | .callback q exch =>
    { st with pkce := (clientCallback st.pkce q exch).2 }
  | .apiToken _ => st
  | .tick ms => { st with now := st.now + ms }

def svcRun (ops : List SvcOp) (st : SvcState) : SvcState :=
  ops.foldl svcStep st

/-- Responses of the `/api/token` handler (lines 527-548).
`notFoundSession` is the 404 body with error text
`session not found or expired`; `notFoundToken` the 404 with
`token not found`. -/
inductive ApiTokenResp where
  | badRequest
  | notFoundSession
  | notFoundToken
  | ok (token : String)
deriving DecidableEq, Repr

/-- The `/api/token` handler: requires a truthy `session` query parameter,
looks the session up in `tokenStorage`, and returns
`id_token || access_token`. -/
def apiTokenHandler (st : SvcState) (session : Option String) : ApiTokenResp :=
  if !jsTruthy session then .badRequest
  else
    match mapGet st.tokens (jsOr session "") with
    | none => .notFoundSession
    | some ts =>
      match tsToken ts with
      | none => .notFoundToken
      | some t => if t.isEmpty then .notFoundToken else .ok t

/-! ## The `validateJWT` middleware

Embeds the middleware of `admin-backend/index.js` lines 104-308, which is
textually identical to the `createJWTMiddleware` variant in
`auth-service/config.js` (second document, lines 145-474) up to the
factory's `clientId` parameter.  Both variants hardcode the literal
`admin-ui` in the fast-path audience check and in the `jwtVerify`
`audience` option; the configured client identifier is used only for the
discovery client object and the `auth_url` hint. -/

/-- The `aud` claim as the code sees it: `Array.isArray(payload.aud) ?
payload.aud : [payload.aud]`.  `single none` embeds an absent `aud`. -/
inductive AudClaim where
  | single (v : Option String)
  | list (vs : List String)
deriving DecidableEq, Repr

/-- `aud.includes(v)` after the array normalisation above.  An absent
single `aud` becomes `[undefined]`, which contains no string. -/
def audContains (a : AudClaim) (v : String) : Bool :=
  match a with
  | .single s => s == some v
  | .list vs => vs.contains v

/-- A decoded JWT payload.  `nonce` is optional (absent embeds a token
without the claim); `name`, `email`, `role` pass through to the request
context unchecked. -/
structure JwtPayload where
  iss : String
  aud : AudClaim
  sub : String
  iat : Nat
  nonce : Option String
  name : Option String
  email : Option String
  role : Option String
deriving DecidableEq, Repr

/-- `req.user` as attached on success (lines 291-296). -/
structure UserCtx where
  sub : String
  name : Option String
  email : Option String
  role : Option String
deriving DecidableEq, Repr

/-- One constructor per 401 body of the middleware, keyed by its `error`
code, plus the success continuation. -/
inductive ValidationResult where
  | unauthorized
  | invalidToken
  | invalidIssuer
  | invalidAudience
  | invalidSignature
  | invalidNonce
  | success (user : UserCtx)
deriving DecidableEq, Repr

/-- `TOKEN_TTL = 60 * 60 * 1000` (one hour in milliseconds). -/
def TOKEN_TTL : Nat := 60 * 60 * 1000

/-- `getTokenKey(nonce, sub, iat)` — the composite replay-guard key
(template literal `nonce:sub:iat`). -/
def getTokenKey (nonce sub : String) (iat : Nat) : String :=
  nonce ++ ":" ++ sub ++ ":" ++ toString iat

/-- The replay-guard block of `validateJWT` (lines 254-286): look the key
up in `usedTokens`; a fresh entry is recorded, an unexpired entry is
treated as legitimate reuse, an expired entry is evicted and re-recorded.
The guard stores `{ timestamp, timeout }`; the timer handle only serves to
cancel the scheduled deletion, so the embedded entry is the timestamp.
No branch of this block returns a response: it always falls through to
the success continuation. -/
def replayGuardStage (guard : AList Nat) (now : Nat) (key : String) : AList Nat :=
  let guard1 :=
    match mapGet guard key with
    | some ts => if now - ts < TOKEN_TTL then guard else mapDelete guard key
    | none => guard
  if (mapGet guard1 key).isSome then guard1 else mapSet guard1 key now

/-- The `validateJWT` middleware.  `issuerIss` is the discovered
`issuer.issuer`; `clientId` the factory configuration (unused by every
check); `authHeader` the `Authorization` header; `decoded` the outcome of
the base64/JSON decode of the second token segment (`none` embeds a
decode throw); `verified` the outcome of the external `jwtVerify` call
(`none` embeds a verification throw).  Returns the response together with
the updated `usedTokens` map. -/
def validateJWT (issuerIss clientId : String) (authHeader : Option String)
    (decoded : Option JwtPayload) (verified : Option JwtPayload)
    (guard : AList Nat) (now : Nat) : ValidationResult × AList Nat :=
  match authHeader with
  | none => (.unauthorized, guard)
  | some h =>
    if !jsStartsWith h "Bearer " then (.unauthorized, guard)
    else
      let token := h.data.drop 7
      if token.isEmpty then (.unauthorized, guard)
      else if (jsSplitChar '.' token).length != 3 then (.invalidToken, guard)
      else
        match decoded with
        | none => (.invalidToken, guard)
        | some payload =>
          if payload.iss != issuerIss then (.invalidIssuer, guard)
          else if !audContains payload.aud "admin-ui" then (.invalidAudience, guard)
          else
            match verified with
            | none => (.invalidSignature, guard)
            | some vp =>
              match vp.nonce with
              | none => (.invalidNonce, guard)
              | some n =>
                if n.isEmpty then (.invalidNonce, guard)
                else
                  let key := getTokenKey n vp.sub vp.iat
                  let guard2 := replayGuardStage guard now key
                  (.success { sub := vp.sub, name := vp.name,
                              email := vp.email, role := vp.role }, guard2)

/-- The fast-path audience check as the specification words it (`audience
must contain this service's expected client identifier`), for comparison
with the check the code performs. -/
def specAudCheck (configuredClientId : String) (aud : AudClaim) : Bool :=
  audContains aud configuredClientId

/-! ## Provider-side data and claims materialization

`auth-service/index.js` lines 9-61 (`users`, `userAppRoles`) and the
`findAccount.claims` callback (lines 99-137, identical in
`auth-service/config.js` lines 100-138 and `src/unnamed/part_000`). -/

structure User where
  id : String
  name : String
  email : String
  password : String
deriving DecidableEq, Repr

def users : List User :=
  [ { id := "user1", name := "User One", email := "user1@example.com", password := "pass1" },
    { id := "user2", name := "User Two", email := "user2@example.com", password := "pass2" },
    { id := "admin", name := "Admin User", email := "admin@example.com", password := "admin" } ]

/-- `userAppRoles`: user id, then client id, then role. -/
def userAppRoles : AList (AList String) :=
  [ ("user1", [("demo-client", "user"), ("app2", "viewer"), ("admin-ui", "user")]),
    ("user2", [("demo-client", "admin"), ("app2", "user"), ("admin-ui", "admin")]),
    ("admin", [("demo-client", "admin"), ("app2", "admin"), ("admin-ui", "admin")]) ]

/-- `userAppRoles[userId]?.[clientId]` — the role-resolver lookup. -/
def roleLookup (roles : AList (AList String)) (userId clientId : String) : Option String :=
  (mapGet roles userId).bind (fun m => mapGet m clientId)

/-- A grant: account, client, granted scopes and claims, and the
`resourceServers` metadata, which the login handler uses as a per-client
role map (`grant.resourceServers[clientId] = { role }`). -/
structure Grant where
  accountId : String
  clientId : String
  scopes : List String
  oidcClaims : List String
  resourceServers : AList String
deriving DecidableEq, Repr

/-- The token payload assembled by `findAccount.claims`. -/
structure MaterializedClaims where
  sub : String
  name : String
  email : String
  email_verified : Bool
  role : Option String
deriving DecidableEq, Repr

/-- The `findAccount(ctx, id).claims` callback.  `ctxClientId` embeds
`ctx.oidc?.client?.clientId` and `ctxGrant` embeds `ctx.oidc?.grant`.
The grant metadata is consulted only inside the `if (!clientId &&
ctx.oidc?.grant)` block, i.e. only when the context carries no client id;
afterwards, a still-falsy role falls back to the `userAppRoles` lookup.
Returns `none` when the account id matches no user (`findAccount`
returns null before the claims callback exists). -/
def findAccountClaims (us : List User) (roles : AList (AList String))
    (ctxClientId : Option String) (ctxGrant : Option Grant)
    (userId : String) : Option MaterializedClaims :=
  match us.find? (fun u => u.id == userId) with
  | none => none
  | some user =>
    let clientId := ctxClientId
    let role : Option String := none
    let (clientId, role) :=
      if !jsTruthy clientId then
        match ctxGrant with
        | some grant =>
          (some grant.clientId, jsOrNull (mapGet grant.resourceServers grant.clientId))
        | none => (clientId, role)
      else (clientId, role)
    let role :=
      if !jsTruthy role && jsTruthy clientId then
        jsOrNull (roleLookup roles user.id (jsOr clientId ""))
      else role
    some { sub := user.id, name := user.name, email := user.email,
           email_verified := true, role := role }

/-- Role resolution in the order the specification words it: (1) the role
recorded in the grant metadata for the requesting client, else (2) a
fresh resolver lookup, else null — regardless of whether the context
carries a client id. -/
def specRoleOrder (roles : AList (AList String)) (ctxGrant : Option Grant)
    (accountId clientId : String) : Option String :=
  match ctxGrant with
  | some grant =>
    match jsOrNull (mapGet grant.resourceServers clientId) with
    | some r => some r
    | none => jsOrNull (roleLookup roles accountId clientId)
  | none => jsOrNull (roleLookup roles accountId clientId)

/-! ## The interaction login POST handler

`auth-service/index.js` lines 222-292 (identical in
`src/unnamed/part_000` lines 189-259): credential check, role-based
access check, then grant creation with the role written into
`resourceServers[clientId]`. -/

inductive LoginOutcome where
  | invalidCredentials
  | accessDenied (userId clientId : String)
  | completed (grant : Grant)
deriving DecidableEq, Repr

/-- The login POST branch.  `login`/`password` come from the form body,
`clientId` from the interaction params, `existingGrant` from
`provider.Grant.find(session.grantId)` (`none` when the session has no
grant).  Scope/claims addition is the `addOIDCScope`/`addOIDCClaims`
pair; `addOIDCScope` receives `params.scope || 'openid'`. -/
def interactionLoginPost (us : List User) (roles : AList (AList String))
    (login password clientId : String) (scopeParam : Option String)
    (existingGrant : Option Grant) : LoginOutcome :=
  match us.find? (fun u => u.id == login && u.password == password) with
  | none => .invalidCredentials
  | some user =>
    match roleLookup roles user.id clientId with
    | none => .accessDenied user.id clientId
    | some role =>
      if role.isEmpty then .accessDenied user.id clientId
      else
        let g0 :=
          match existingGrant with
          | some g => g
          | none => { accountId := user.id, clientId := clientId,
                      scopes := [], oidcClaims := [], resourceServers := [] }
        let g1 := { g0 with
          scopes := g0.scopes ++ [jsOr scopeParam "openid"],
          oidcClaims := g0.oidcClaims ++ ["sub", "name", "email", "email_verified", "role"],
          resourceServers := mapSet g0.resourceServers clientId role }
        .completed g1

/-! ## Theorems -/

theorem isEmpty_false_of_ne {s : String} (hs : s ≠ "") : s.isEmpty = false := by
  cases h : s.isEmpty
  · rfl
  · exact absurd ((String.isEmpty_iff s).mp h) hs

theorem jsTruthy_some_of_ne {s : String} (hs : s ≠ "") : jsTruthy (some s) = true := by
  simp [jsTruthy, isEmpty_false_of_ne hs]

theorem jsOr_some_of_ne {s : String} (d : String) (hs : s ≠ "") : jsOr (some s) d = s := by
  simp [jsOr, isEmpty_false_of_ne hs]

/-- Any sequential run of the callback handler that finds the correlation
entry removes it from the store, whichever branch it then takes. -/
theorem clientCallback_consumes (store : AList PkceEntry) (q : CallbackQuery)
    (exch : ExchangeResult) (s : String) (hq : q.state = some s) (hs : s ≠ "")
    (hhit : (mapGet store s).isSome) :
    mapGet (clientCallback store q exch).2 s = none := by
  obtain ⟨entry, hentry⟩ := Option.isSome_iff_exists.mp hhit
  have htr : jsTruthy q.state = true := by rw [hq]; exact jsTruthy_some_of_ne hs
  have hor : jsOr q.state "" = s := by rw [hq]; exact jsOr_some_of_ne _ hs
  by_cases herr : jsTruthy q.error = true
  · simp [clientCallback, cbPrefix, htr, hor, hentry, herr, mapGet_mapDelete_self]
  · simp only [Bool.not_eq_true] at herr
    by_cases hcode : jsTruthy q.code = true
    · cases exch with
      | failure msg =>
        simp [clientCallback, cbPrefix, cbFinish, htr, hor, hentry, herr, hcode,
          mapGet_mapDelete_self]
      | success ts =>
        cases hc : ts.claims with
        | none =>
          simp [clientCallback, cbPrefix, cbFinish, htr, hor, hentry, herr, hcode, hc,
            mapGet_mapDelete_self]
        | some c =>
          by_cases hsub : jsTruthy c.sub = true <;>
            simp [clientCallback, cbPrefix, cbFinish, htr, hor, hentry, herr, hcode, hc,
              hsub, mapGet_mapDelete_self]
    · simp only [Bool.not_eq_true] at hcode
      simp [clientCallback, cbPrefix, htr, hor, hentry, herr, hcode, mapGet_mapDelete_self]

/-- C1 counterexample: the callback handler's lookup does not atomically
retrieve and delete.  After the first thread has executed its synchronous
prefix (which includes the `pkceStorage.get`), the entry is still in the
store; and in the interleaving where two concurrent callbacks carrying the
same state both run their prefix before either reaches the delete at line
479, both complete with the success redirect — not at most one. -/
theorem C1_counterexample :
    mapGet (cbRun [0]
      { store := [("s1", { codeVerifier := "cv1", nonce := "n1",
                           redirectUrl := "http://localhost:3002/",
                           clientId := "demo-client" })],
        threads := List.replicate 2
          { q := { state := some "s1", error := none,
                   error_description := none, code := some "code1" },
            exch := .success { id_token := some "tok1", access_token := none,
                               claims := some { sub := some "user1" } },
            pc := .start } }).store "s1"
      = some { codeVerifier := "cv1", nonce := "n1",
               redirectUrl := "http://localhost:3002/", clientId := "demo-client" } ∧
    cbSuccessCount (cbRun [0, 1, 0, 1]
      { store := [("s1", { codeVerifier := "cv1", nonce := "n1",
                           redirectUrl := "http://localhost:3002/",
                           clientId := "demo-client" })],
        threads := List.replicate 2
          { q := { state := some "s1", error := none,
                   error_description := none, code := some "code1" },
            exch := .success { id_token := some "tok1", access_token := none,
                               claims := some { sub := some "user1" } },
            pc := .start } }) = 2 := by
  constructor <;> rfl

/-- C1 (amended): sequentially, consumption is exactly-once — any
`/client/callback` invocation whose state parameter is found in the
correlation store deletes the entry before finishing, whichever branch it
takes, so a subsequent invocation presenting the same state observes the
unknown-or-expired-state miss.  (The lookup itself is a plain `get`; the
delete happens later in each branch, which is why the concurrent half of
the original claim fails — see the counterexample.) -/
theorem C1_sequential_takeOnce (store : AList PkceEntry) (q q2 : CallbackQuery)
    (exch exch2 : ExchangeResult) (s : String)
    (hq : q.state = some s) (hs : s ≠ "") (hhit : (mapGet store s).isSome)
    (hq2 : q2.state = some s) :
    (clientCallback (clientCallback store q exch).2 q2 exch2).1
      = .unknownOrExpiredState := by
  have hmiss : mapGet (clientCallback store q exch).2 s = none :=
    clientCallback_consumes store q exch s hq hs hhit
  have htr : jsTruthy q2.state = true := by rw [hq2]; exact jsTruthy_some_of_ne hs
  have hor : jsOr q2.state "" = s := by rw [hq2]; exact jsOr_some_of_ne _ hs
  revert hmiss
  generalize (clientCallback store q exch).2 = st1
  intro hmiss
  simp [clientCallback, cbPrefix, htr, hor, hmiss]

/-- Witness for `C1_sequential_takeOnce` at a concrete store and query. -/
theorem C1_sequential_takeOnce_witness :
    (clientCallback
      (clientCallback
        [("s1", { codeVerifier := "cv1", nonce := "n1",
                  redirectUrl := "http://localhost:3002/", clientId := "demo-client" })]
        { state := some "s1", error := none, error_description := none, code := some "code1" }
        (.success { id_token := some "tok1", access_token := none,
                    claims := some { sub := some "user1" } })).2
      { state := some "s1", error := none, error_description := none, code := some "code1" }
      (.success { id_token := some "tok1", access_token := none,
                  claims := some { sub := some "user1" } })).1
      = .unknownOrExpiredState :=
  C1_sequential_takeOnce _ _ _ _ _ "s1" rfl (by decide) (by decide) rfl

/-- C3 counterexample: a `/client/auth` put under a state already present
in the correlation store does not fail — it succeeds with the redirect and
silently replaces the existing entry (`Map.set` semantics); no internal
error is raised and no new state is generated. -/
theorem C3_counterexample :
    (clientAuthBegin
      [("s1", { codeVerifier := "cvA", nonce := "nA",
                redirectUrl := "http://localhost:3002/", clientId := "demo-client" })]
      (some "demo-client") "cvB" "nB" "s1").1
      = .redirect "demo-client" "s1" ∧
    (clientAuthBegin
      [("s1", { codeVerifier := "cvA", nonce := "nA",
                redirectUrl := "http://localhost:3002/", clientId := "demo-client" })]
      (some "demo-client") "cvB" "nB" "s1").2
      = [("s1", { codeVerifier := "cvB", nonce := "nB",
                  redirectUrl := "http://localhost:3002/", clientId := "demo-client" })] ∧
    ({ codeVerifier := "cvB", nonce := "nB", redirectUrl := "http://localhost:3002/",
       clientId := "demo-client" } : PkceEntry)
      ≠ { codeVerifier := "cvA", nonce := "nA", redirectUrl := "http://localhost:3002/",
          clientId := "demo-client" } := by
  refine ⟨rfl, rfl, ?_⟩
  decide

/-- C3 (amended): for a registered client, `/client/auth` always succeeds
and stores the freshly generated entry under the generated state with
last-write-wins semantics — even when the state is already present, in
which case the old entry is silently overwritten rather than the put
failing. -/
theorem C3_put_overwrites (store : AList PkceEntry) (cidQ : Option String)
    (cv nonce state : String)
    (hreg : (applications.find? (fun a => a.client_id == jsOr cidQ "demo-client")).isSome)
    (hcol : (mapGet store state).isSome) :
    (clientAuthBegin store cidQ cv nonce state).1
      = .redirect (jsOr cidQ "demo-client") state ∧
    mapGet (clientAuthBegin store cidQ cv nonce state).2 state
      = some { codeVerifier := cv, nonce := nonce,
               redirectUrl := jsOr (mapGet clientRedirectUrls (jsOr cidQ "demo-client"))
                                "http://localhost:3001/",
               clientId := jsOr cidQ "demo-client" } := by
  have hne : (applications.find? (fun a => a.client_id == jsOr cidQ "demo-client")).isNone = false := by
    cases h : applications.find? (fun a => a.client_id == jsOr cidQ "demo-client") with
    | none => rw [h] at hreg; exact absurd hreg (by decide)
    | some a => rfl
  constructor
  · simp [clientAuthBegin, hne]
  · simp [clientAuthBegin, hne, mapGet_mapSet_self]

/-- Witness for `C3_put_overwrites`: a collision on state `s1`. -/
theorem C3_put_overwrites_witness :
    (clientAuthBegin
      [("s1", { codeVerifier := "cvA", nonce := "nA",
                redirectUrl := "http://localhost:3002/", clientId := "demo-client" })]
      (some "demo-client") "cvB" "nB" "s1").1
      = .redirect (jsOr (some "demo-client") "demo-client") "s1" :=
  (C3_put_overwrites
    [("s1", { codeVerifier := "cvA", nonce := "nA",
              redirectUrl := "http://localhost:3002/", clientId := "demo-client" })]
    (some "demo-client") "cvB" "nB" "s1" (by decide) (by decide)).1

/-- Time passage alone never changes the correlation store: no timer or
sweep is registered on `pkceStorage`. -/
theorem svcRun_ticks_pkce (st : SvcState) (mss : List Nat) :
    (svcRun (mss.map SvcOp.tick) st).pkce = st.pkce := by
  induction mss generalizing st with
  | nil => rfl
  | cons ms rest ih => simpa [svcRun, svcStep] using ih { st with now := st.now + ms }

/-- C4 counterexample: a correlation entry created at time 0 is still
present — and a callback presenting its state still hits, completing the
exchange — after ten years of elapsed time with no request in between.
No periodic sweep evicts it (the module registers no timer on
`pkceStorage`, and the stored entry does not even carry a creation
timestamp that a sweep could compare against a TTL). -/
theorem C4_counterexample :
    mapGet (svcRun [.authBegin (some "demo-client") "cv1" "n1" "s1",
                    .tick 315360000000] initSvc).pkce "s1"
      = some { codeVerifier := "cv1", nonce := "n1",
               redirectUrl := "http://localhost:3002/", clientId := "demo-client" } ∧
    (clientCallback
      (svcRun [.authBegin (some "demo-client") "cv1" "n1" "s1",
               .tick 315360000000] initSvc).pkce
      { state := some "s1", error := none, error_description := none, code := some "code1" }
      (.success { id_token := some "tok1", access_token := none,
                  claims := some { sub := some "user1" } })).1
      = .redirectWithToken "http://localhost:3002/" (some "tok1") := by
  constructor <;> rfl

/-- C4 (amended): the correlation store has no TTL eviction at all — an
entry present in `pkceStorage` survives any sequence of clock ticks
unchanged and a later callback with its state still finds it; entries
disappear only by being consumed by a callback or overwritten by a
colliding put. -/
theorem C4_no_ttl_eviction (st : SvcState) (mss : List Nat) (s : String)
    (e : PkceEntry) (h : mapGet st.pkce s = some e) :
    mapGet (svcRun (mss.map SvcOp.tick) st).pkce s = some e := by
  rw [svcRun_ticks_pkce]
  exact h

/-- Witness for `C4_no_ttl_eviction`: an entry survives three ticks. -/
theorem C4_no_ttl_eviction_witness :
    mapGet (svcRun ([1000, TOKEN_TTL, 315360000000].map SvcOp.tick)
      { pkce := [("s1", { codeVerifier := "cv1", nonce := "n1",
                          redirectUrl := "http://localhost:3002/",
                          clientId := "demo-client" })],
        tokens := [], now := 0 }).pkce "s1"
      = some { codeVerifier := "cv1", nonce := "n1",
               redirectUrl := "http://localhost:3002/", clientId := "demo-client" } :=
  C4_no_ttl_eviction _ _ "s1" _ rfl

/-- No operation of the combined service writes `tokenStorage`. -/
theorem svcStep_tokens (st : SvcState) (op : SvcOp) :
    (svcStep st op).tokens = st.tokens := by
  cases op <;> rfl

theorem svcRun_tokens (ops : List SvcOp) (st : SvcState) :
    (svcRun ops st).tokens = st.tokens := by
  induction ops generalizing st with
  | nil => rfl
  | cons op rest ih => rw [svcRun, List.foldl_cons, ← svcRun, ih, svcStep_tokens]

/-- C10: in the combined provider+client service no code path ever writes
`tokenStorage` (the successful callback appends the raw token to the
redirect URL instead), so after any sequence of service events the store
is still empty and `GET /api/token` answers the 404
`session not found or expired` outcome for every session id presented. -/
theorem C10_api_token_always_misses (ops : List SvcOp) (sid : String)
    (hs : sid ≠ "") :
    (svcRun ops initSvc).tokens = [] ∧
    apiTokenHandler (svcRun ops initSvc) (some sid) = .notFoundSession := by
  have hemp : (svcRun ops initSvc).tokens = [] := svcRun_tokens ops initSvc
  refine ⟨hemp, ?_⟩
  unfold apiTokenHandler
  rw [jsTruthy_some_of_ne hs, hemp]
  rfl

/-- Witness for `C10_api_token_always_misses`: a trace that completes a
whole successful login flow, then presents a session id. -/
theorem C10_api_token_always_misses_witness :
    apiTokenHandler
      (svcRun [.authBegin (some "demo-client") "cv1" "n1" "s1",
               .callback { state := some "s1", error := none,
                           error_description := none, code := some "code1" }
                 (.success { id_token := some "tok1", access_token := none,
                             claims := some { sub := some "user1" } }),
               .apiToken (some "anySession"), .tick 5000] initSvc)
      (some "anySession") = .notFoundSession :=
  (C10_api_token_always_misses _ "anySession" (by decide)).2

/-- C2 evaluated at the failing input: the replay guard already holds the
key recorded by a successfully validated token `(nonce n1, sub user1,
iat 100)`; a second verified token reusing nonce `n1` with sub `user2`
and iat `200` maps to a different composite key, so the guard simply
records it as a fresh entry and validation succeeds — it is not rejected
as a replay.  (The guard block of `validateJWT` has no rejection branch
at all, contradicting the source's own comment that the composite key
prevents use of forged tokens.) -/
theorem C2_replay_forged_token_accepted :
    (validateJWT "http://localhost:3000" "admin-ui" (some "Bearer h.p.s")
      (some { iss := "http://localhost:3000", aud := .single (some "admin-ui"),
              sub := "user2", iat := 200, nonce := some "n1",
              name := some "User Two", email := some "user2@example.com",
              role := some "admin" })
      (some { iss := "http://localhost:3000", aud := .single (some "admin-ui"),
              sub := "user2", iat := 200, nonce := some "n1",
              name := some "User Two", email := some "user2@example.com",
              role := some "admin" })
      [(getTokenKey "n1" "user1" 100, 0)] 500).1
      = .success { sub := "user2", name := some "User Two",
                   email := some "user2@example.com", role := some "admin" } ∧
    (validateJWT "http://localhost:3000" "admin-ui" (some "Bearer h.p.s")
      (some { iss := "http://localhost:3000", aud := .single (some "admin-ui"),
              sub := "user2", iat := 200, nonce := some "n1",
              name := some "User Two", email := some "user2@example.com",
              role := some "admin" })
      (some { iss := "http://localhost:3000", aud := .single (some "admin-ui"),
              sub := "user2", iat := 200, nonce := some "n1",
              name := some "User Two", email := some "user2@example.com",
              role := some "admin" })
      [(getTokenKey "n1" "user1" 100, 0)] 500).2
      = [(getTokenKey "n1" "user1" 100, 0), (getTokenKey "n1" "user2" 200, 500)] := by
  constructor <;> rfl

/-- C5 counterexample: the middleware is configured with
`clientId = demo-client`, yet the fast-path audience check tests the
hardcoded literal `admin-ui`.  A token whose `aud` does not contain the
configured client identifier passes the fast path (validation succeeds),
while a token whose `aud` is exactly the configured identifier is
rejected with `invalid_audience` — refuting both directions of the
claimed `exactly when`. -/
theorem C5_counterexample :
    specAudCheck "demo-client" (.single (some "admin-ui")) = false ∧
    (validateJWT "http://localhost:3000" "demo-client" (some "Bearer h.p.s")
      (some { iss := "http://localhost:3000", aud := .single (some "admin-ui"),
              sub := "user1", iat := 100, nonce := some "n1",
              name := none, email := none, role := some "user" })
      (some { iss := "http://localhost:3000", aud := .single (some "admin-ui"),
              sub := "user1", iat := 100, nonce := some "n1",
              name := none, email := none, role := some "user" })
      [] 0).1
      = .success { sub := "user1", name := none, email := none, role := some "user" } ∧
    specAudCheck "demo-client" (.list ["demo-client"]) = true ∧
    (validateJWT "http://localhost:3000" "demo-client" (some "Bearer h.p.s")
      (some { iss := "http://localhost:3000", aud := .list ["demo-client"],
              sub := "user1", iat := 100, nonce := some "n1",
              name := none, email := none, role := some "user" })
      (some { iss := "http://localhost:3000", aud := .list ["demo-client"],
              sub := "user1", iat := 100, nonce := some "n1",
              name := none, email := none, role := some "user" })
      [] 0).1
      = .invalidAudience := by
  refine ⟨rfl, rfl, rfl, rfl⟩

/-- C5 (amended): for every well-formed bearer token (header present,
three segments, decodable payload), the fast-path issuer check rejects
with `invalid_issuer` exactly when the decoded `iss` differs from the
discovered authority identifier, and the fast-path audience check rejects
with `invalid_audience` exactly when the decoded `aud` (single value or
list) does not contain the hardcoded literal `admin-ui` — not the
configured client identifier, of which the validator's outcome is
independent.  Both checks run before the cryptographic verification: the
equivalences hold for every outcome of the `jwtVerify` oracle. -/
theorem C5_fastpath_checks (issuerIss cid : String) (h : String)
    (decodedP : JwtPayload) (verified : Option JwtPayload)
    (guard : AList Nat) (now : Nat)
    (hh : jsStartsWith h "Bearer " = true) (ht : (h.data.drop 7).isEmpty = false)
    (hp : (jsSplitChar '.' (h.data.drop 7)).length = 3) :
    (((validateJWT issuerIss cid (some h) (some decodedP) verified guard now).1
        = .invalidIssuer) ↔ decodedP.iss ≠ issuerIss) ∧
    (((validateJWT issuerIss cid (some h) (some decodedP) verified guard now).1
        = .invalidAudience)
      ↔ (decodedP.iss = issuerIss ∧ audContains decodedP.aud "admin-ui" = false)) ∧
    (∀ cid2, validateJWT issuerIss cid (some h) (some decodedP) verified guard now
           = validateJWT issuerIss cid2 (some h) (some decodedP) verified guard now) := by
  have hred : validateJWT issuerIss cid (some h) (some decodedP) verified guard now
      = if decodedP.iss != issuerIss then (.invalidIssuer, guard)
        else if !audContains decodedP.aud "admin-ui" then (.invalidAudience, guard)
        else match verified with
          | none => (.invalidSignature, guard)
          | some vp =>
            match vp.nonce with
            | none => (.invalidNonce, guard)
            | some n =>
              if n.isEmpty then (.invalidNonce, guard)
              else (.success { sub := vp.sub, name := vp.name,
                               email := vp.email, role := vp.role },
                    replayGuardStage guard now (getTokenKey n vp.sub vp.iat)) := by
    unfold validateJWT
    simp [hh, ht, hp]
  refine ⟨?_, ?_, fun cid2 => rfl⟩
  · rw [hred]
    by_cases hiss : decodedP.iss = issuerIss
    · simp only [hiss, bne_self_eq_false, Bool.false_eq_true, if_false]
      by_cases haud : audContains decodedP.aud "admin-ui" = true
      · simp only [haud, Bool.not_true, Bool.false_eq_true, if_false]
        cases verified with
        | none => simp [hiss]
        | some vp =>
          cases hvn : vp.nonce with
          | none => simp [hvn, hiss]
          | some n => by_cases hne : n.isEmpty = true <;> simp [hvn, hne, hiss]
      · simp only [Bool.not_eq_true] at haud
        simp [haud, hiss]
    · simp [bne_iff_ne, hiss]
  · rw [hred]
    by_cases hiss : decodedP.iss = issuerIss
    · simp only [hiss, bne_self_eq_false, Bool.false_eq_true, if_false]
      by_cases haud : audContains decodedP.aud "admin-ui" = true
      · simp only [haud, Bool.not_true, Bool.false_eq_true, if_false]
        cases verified with
        | none => simp [haud]
        | some vp =>
          cases hvn : vp.nonce with
          | none => simp [hvn, haud]
          | some n => by_cases hne : n.isEmpty = true <;> simp [hvn, hne, haud]
      · simp only [Bool.not_eq_true] at haud
        simp [haud, hiss]
    · simp [bne_iff_ne, hiss]

/-- Witness for `C5_fastpath_checks` at a concrete well-formed token. -/
theorem C5_fastpath_checks_witness :
    ((validateJWT "http://localhost:3000" "demo-client" (some "Bearer h.p.s")
      (some { iss := "http://evil.example", aud := .single (some "admin-ui"),
              sub := "user1", iat := 100, nonce := some "n1",
              name := none, email := none, role := none })
      none [] 0).1 = .invalidIssuer)
      ↔ ("http://evil.example" : String) ≠ "http://localhost:3000" :=
  (C5_fastpath_checks "http://localhost:3000" "demo-client" "Bearer h.p.s"
    { iss := "http://evil.example", aud := .single (some "admin-ui"),
      sub := "user1", iat := 100, nonce := some "n1",
      name := none, email := none, role := none }
    none [] 0 (by decide) (by decide) (by decide)).1

/-- C9: the replay-guard stage never rejects.  For every verified payload
carrying a non-empty string nonce — and for every state of the
`usedTokens` map and every clock value — `validateJWT` proceeds to the
success outcome derived from the verified payload; the guard's contents
never influence the validator's response. -/
theorem C9_guard_never_rejects (issuerIss cid : String) (h : String)
    (decodedP vp : JwtPayload) (guard : AList Nat) (now : Nat) (n : String)
    (hh : jsStartsWith h "Bearer " = true) (ht : (h.data.drop 7).isEmpty = false)
    (hp : (jsSplitChar '.' (h.data.drop 7)).length = 3)
    (hiss : decodedP.iss = issuerIss)
    (haud : audContains decodedP.aud "admin-ui" = true)
    (hn : vp.nonce = some n) (hne : n ≠ "") :
    (validateJWT issuerIss cid (some h) (some decodedP) (some vp) guard now).1
      = .success { sub := vp.sub, name := vp.name, email := vp.email, role := vp.role } := by
  unfold validateJWT
  simp [hh, ht, hp, hiss, haud, hn, isEmpty_false_of_ne hne]

/-- Witness for `C9_guard_never_rejects`: a token whose guard key is
already present (the reuse case). -/
theorem C9_guard_never_rejects_witness :
    (validateJWT "http://localhost:3000" "admin-ui" (some "Bearer h.p.s")
      (some { iss := "http://localhost:3000", aud := .single (some "admin-ui"),
              sub := "user1", iat := 100, nonce := some "n1",
              name := none, email := none, role := some "user" })
      (some { iss := "http://localhost:3000", aud := .single (some "admin-ui"),
              sub := "user1", iat := 100, nonce := some "n1",
              name := none, email := none, role := some "user" })
      [(getTokenKey "n1" "user1" 100, 0)] 1000).1
      = .success { sub := "user1", name := none, email := none, role := some "user" } :=
  C9_guard_never_rejects "http://localhost:3000" "admin-ui" "Bearer h.p.s"
    _ _ [(getTokenKey "n1" "user1" 100, 0)] 1000 "n1"
    (by decide) (by decide) (by decide) rfl rfl rfl (by decide)

/-- C6 counterexample: materialization for `user1`/`demo-client` with the
client id present in the request context and a grant whose metadata
records role `admin` for `demo-client`.  The claimed order would resolve
the role from the grant metadata (`admin`); the code never consults the
grant when the context carries a client id and returns the resolver
mapping's `user` instead. -/
theorem C6_counterexample :
    findAccountClaims users userAppRoles (some "demo-client")
      (some { accountId := "user1", clientId := "demo-client", scopes := [],
              oidcClaims := [], resourceServers := [("demo-client", "admin")] })
      "user1"
      = some { sub := "user1", name := "User One", email := "user1@example.com",
               email_verified := true, role := some "user" } ∧
    specRoleOrder userAppRoles
      (some { accountId := "user1", clientId := "demo-client", scopes := [],
              oidcClaims := [], resourceServers := [("demo-client", "admin")] })
      "user1" "demo-client"
      = some "admin" ∧
    (some "user" : Option String) ≠ some "admin" := by
  refine ⟨rfl, rfl, by decide⟩

/-- C6 (amended): for every account the materialized claims always carry
`sub` (the account id), `name`, `email`, `email_verified = true` and a
`role` field — a null role still yields a valid claims set.  But the
resolution order differs from the claim: when the request context carries
a client id the grant metadata is never consulted (the result is
independent of the grant) and the role is the Role Resolver lookup by
(accountId, context clientId), else null; only when the context lacks a
client id is the grant consulted, preferring its recorded role for the
grant's own client id and falling back to the resolver lookup. -/
theorem C6_claims_materialization (us : List User) (roles : AList (AList String))
    (ctxClientId : Option String) (ctxGrant : Option Grant) (uid : String) (user : User)
    (hfind : us.find? (fun u => u.id == uid) = some user) :
    (∃ c, findAccountClaims us roles ctxClientId ctxGrant uid = some c ∧
      c.sub = user.id ∧ c.name = user.name ∧ c.email = user.email ∧
      c.email_verified = true) ∧
    (jsTruthy ctxClientId = true →
      (∀ g g2 : Option Grant,
        findAccountClaims us roles ctxClientId g uid
          = findAccountClaims us roles ctxClientId g2 uid) ∧
      findAccountClaims us roles ctxClientId ctxGrant uid
        = some { sub := user.id, name := user.name, email := user.email,
                 email_verified := true,
                 role := jsOrNull (roleLookup roles user.id (jsOr ctxClientId "")) }) ∧
    (jsTruthy ctxClientId = false → ∀ g, ctxGrant = some g → g.clientId ≠ "" →
      findAccountClaims us roles ctxClientId ctxGrant uid
        = some { sub := user.id, name := user.name, email := user.email,
                 email_verified := true,
                 role :=
                   match jsOrNull (mapGet g.resourceServers g.clientId) with
                   | some r => some r
                   | none => jsOrNull (roleLookup roles user.id g.clientId) }) := by
  refine ⟨?_, ?_, ?_⟩
  · have hx : ∃ r, findAccountClaims us roles ctxClientId ctxGrant uid
        = some { sub := user.id, name := user.name, email := user.email,
                 email_verified := true, role := r } := by
      simp only [findAccountClaims, hfind]
      exact ⟨_, rfl⟩
    obtain ⟨r, hr⟩ := hx
    exact ⟨_, hr, rfl, rfl, rfl, rfl⟩
  · intro hct
    cases ctxClientId with
    | none => exact absurd hct (by decide)
    | some s =>
      have hs : s.isEmpty = false := by simpa [jsTruthy] using hct
      have key : ∀ g : Option Grant, findAccountClaims us roles (some s) g uid
          = some { sub := user.id, name := user.name, email := user.email,
                   email_verified := true,
                   role := jsOrNull (roleLookup roles user.id (jsOr (some s) "")) } := by
        intro g
        simp [findAccountClaims, hfind, jsTruthy, hs]
      exact ⟨fun g g2 => (key g).trans (key g2).symm, key ctxGrant⟩
  · intro hct g hg hgc
    subst hg
    have hgs : g.clientId.isEmpty = false := isEmpty_false_of_ne hgc
    cases ctxClientId with
    | none =>
      cases hm : mapGet g.resourceServers g.clientId with
      | none => simp [findAccountClaims, hfind, hm, jsTruthy, jsOrNull, jsOr, hgs]
      | some v =>
        by_cases hv : v.isEmpty = true
        · simp [findAccountClaims, hfind, hm, jsTruthy, jsOrNull, jsOr, hgs, hv]
        · simp only [Bool.not_eq_true] at hv
          simp [findAccountClaims, hfind, hm, jsTruthy, jsOrNull, jsOr, hgs, hv]
    | some s =>
      have hs : s.isEmpty = true := by simpa [jsTruthy] using hct
      cases hm : mapGet g.resourceServers g.clientId with
      | none => simp [findAccountClaims, hfind, hm, jsTruthy, jsOrNull, jsOr, hgs, hs]
      | some v =>
        by_cases hv : v.isEmpty = true
        · simp [findAccountClaims, hfind, hm, jsTruthy, jsOrNull, jsOr, hgs, hs, hv]
        · simp only [Bool.not_eq_true] at hv
          simp [findAccountClaims, hfind, hm, jsTruthy, jsOrNull, jsOr, hgs, hs, hv]

/-- Witness for `C6_claims_materialization` at `user1` with the client id
in context. -/
theorem C6_claims_materialization_witness :
    findAccountClaims users userAppRoles (some "demo-client") none "user1"
      = some { sub := "user1", name := "User One", email := "user1@example.com",
               email_verified := true,
               role := jsOrNull (roleLookup userAppRoles "user1"
                         (jsOr (some "demo-client") "")) } :=
  ((C6_claims_materialization users userAppRoles (some "demo-client") none "user1"
    { id := "user1", name := "User One", email := "user1@example.com",
      password := "pass1" } rfl).2.1 (by decide)).2

/-- C7: the callback handler applies its checks in the fixed fail-fast
order — state present, correlation entry found, no authority-reported
error parameter, code present, successful exchange, claims with a
non-empty `sub` — and the first failing check determines the outcome;
every failure outcome is retryable (its page carries the try-again link)
and the six failure outcomes are pairwise distinct. -/
theorem C7_callback_validation_order (store : AList PkceEntry) (q : CallbackQuery)
    (exch : ExchangeResult) :
    (jsTruthy q.state = false →
      clientCallback store q exch = (.missingState, store)) ∧
    (∀ s, q.state = some s → s ≠ "" → mapGet store s = none →
      clientCallback store q exch = (.unknownOrExpiredState, store)) ∧
    (∀ s e, q.state = some s → s ≠ "" → mapGet store s = some e →
      jsTruthy q.error = true →
      (clientCallback store q exch).1
        = .authorityError (jsOr q.error "") (jsOr q.error_description "No description")) ∧
    (∀ s e, q.state = some s → s ≠ "" → mapGet store s = some e →
      jsTruthy q.error = false → jsTruthy q.code = false →
      (clientCallback store q exch).1 = .missingCode) ∧
    (∀ s e msg, q.state = some s → s ≠ "" → mapGet store s = some e →
      jsTruthy q.error = false → jsTruthy q.code = true → exch = .failure msg →
      (clientCallback store q exch).1 = .exchangeError msg) ∧
    (∀ s e ts, q.state = some s → s ≠ "" → mapGet store s = some e →
      jsTruthy q.error = false → jsTruthy q.code = true → exch = .success ts →
      (ts.claims = none ∨ ∃ c, ts.claims = some c ∧ jsTruthy c.sub = false) →
      (clientCallback store q exch).1 = .missingSubject) ∧
    (∀ o : CallbackOutcome, (∀ url tok, o ≠ .redirectWithToken url tok) →
      hasTryAgainLink o = true) ∧
    [CallbackOutcome.missingState, .unknownOrExpiredState, .authorityError "e" "d",
     .missingCode, .exchangeError "m", .missingSubject].Nodup := by
  refine ⟨?_, ?_, ?_, ?_, ?_, ?_, ?_, by decide⟩
  · intro hns
    simp [clientCallback, cbPrefix, hns]
  · intro s hq hs hmiss
    simp [clientCallback, cbPrefix, hq, jsTruthy_some_of_ne hs, jsOr_some_of_ne _ hs, hmiss]
  · intro s e hq hs hhit herr
    simp [clientCallback, cbPrefix, hq, jsTruthy_some_of_ne hs, jsOr_some_of_ne _ hs,
      hhit, herr]
  · intro s e hq hs hhit herr hcode
    simp [clientCallback, cbPrefix, hq, jsTruthy_some_of_ne hs, jsOr_some_of_ne _ hs,
      hhit, herr, hcode]
  · intro s e msg hq hs hhit herr hcode hex
    simp [clientCallback, cbPrefix, cbFinish, hq, jsTruthy_some_of_ne hs,
      jsOr_some_of_ne _ hs, hhit, herr, hcode, hex]
  · intro s e ts hq hs hhit herr hcode hex hsub
    rcases hsub with hnone | ⟨c, hc, hcs⟩
    · simp [clientCallback, cbPrefix, cbFinish, hq, jsTruthy_some_of_ne hs,
        jsOr_some_of_ne _ hs, hhit, herr, hcode, hex, hnone]
    · simp [clientCallback, cbPrefix, cbFinish, hq, jsTruthy_some_of_ne hs,
        jsOr_some_of_ne _ hs, hhit, herr, hcode, hex, hc, hcs]
  · intro o ho
    cases o with
    | redirectWithToken url tok => exact absurd rfl (ho url tok)
    | _ => rfl

/-- Witness for `C7_callback_validation_order`: a callback whose query
carries an authority error together with a found entry and a present
code — the error check fires first. -/
theorem C7_callback_validation_order_witness :
    (clientCallback
      [("s1", { codeVerifier := "cv1", nonce := "n1",
                redirectUrl := "http://localhost:3002/", clientId := "demo-client" })]
      { state := some "s1", error := some "access_denied",
        error_description := none, code := some "code1" }
      (.failure "unreached")).1
      = .authorityError (jsOr (some "access_denied") "")
          (jsOr none "No description") :=
  (C7_callback_validation_order _ _ _).2.2.1 "s1" _ rfl (by decide) rfl (by decide)

/-- C8: the role-based access check of the interaction login handler runs
only after credentials verify and yields outcomes distinct both from
invalid credentials and from grant completion: a wrong credential pair is
rejected as `invalidCredentials` whatever the role mapping says; a
verified user with no role mapping for the requested client is rejected
as `accessDenied` and never reaches grant creation; a verified user with
a mapped role completes with a grant recording that role for the client —
and for `user1`/`demo-client` the grant records role `user` and the
claims subsequently materialized for the issued token carry `role =
user`. -/
theorem C8_login_role_gate (us : List User) (roles : AList (AList String))
    (login password clientId : String) (scopeParam : Option String)
    (existingGrant : Option Grant) :
    (us.find? (fun u => u.id == login && u.password == password) = none →
      interactionLoginPost us roles login password clientId scopeParam existingGrant
        = .invalidCredentials) ∧
    (∀ user, us.find? (fun u => u.id == login && u.password == password) = some user →
      roleLookup roles user.id clientId = none →
      interactionLoginPost us roles login password clientId scopeParam existingGrant
        = .accessDenied user.id clientId) ∧
    (∀ u c, (LoginOutcome.accessDenied u c) ≠ .invalidCredentials) ∧
    (∀ u c g, (LoginOutcome.accessDenied u c) ≠ .completed g) ∧
    (∀ user role, us.find? (fun u => u.id == login && u.password == password) = some user →
      roleLookup roles user.id clientId = some role → role ≠ "" →
      ∃ g1, interactionLoginPost us roles login password clientId scopeParam existingGrant
          = .completed g1 ∧ mapGet g1.resourceServers clientId = some role) ∧
    (∃ g1, interactionLoginPost users userAppRoles "user1" "pass1" "demo-client" none none
        = .completed g1 ∧ mapGet g1.resourceServers "demo-client" = some "user" ∧
      findAccountClaims users userAppRoles (some "demo-client") (some g1) "user1"
        = some { sub := "user1", name := "User One", email := "user1@example.com",
                 email_verified := true, role := some "user" }) := by
  refine ⟨?_, ?_, ?_, ?_, ?_, ?_⟩
  · intro hfind
    simp [interactionLoginPost, hfind]
  · intro user hfind hrole
    simp [interactionLoginPost, hfind, hrole]
  · intro u c
    exact fun h => LoginOutcome.noConfusion h
  · intro u c g
    exact fun h => LoginOutcome.noConfusion h
  · intro user role hfind hrole hne
    cases existingGrant with
    | none =>
      refine ⟨{ accountId := user.id, clientId := clientId,
                scopes := [jsOr scopeParam "openid"],
                oidcClaims := ["sub", "name", "email", "email_verified", "role"],
                resourceServers := mapSet [] clientId role }, ?_, ?_⟩
      · simp [interactionLoginPost, hfind, hrole, isEmpty_false_of_ne hne]
      · exact mapGet_mapSet_self _ _ _
    | some g =>
      refine ⟨{ accountId := g.accountId, clientId := g.clientId,
                scopes := g.scopes ++ [jsOr scopeParam "openid"],
                oidcClaims := g.oidcClaims ++ ["sub", "name", "email", "email_verified", "role"],
                resourceServers := mapSet g.resourceServers clientId role }, ?_, ?_⟩
      · simp [interactionLoginPost, hfind, hrole, isEmpty_false_of_ne hne]
      · exact mapGet_mapSet_self _ _ _
  · exact ⟨{ accountId := "user1", clientId := "demo-client", scopes := ["openid"],
             oidcClaims := ["sub", "name", "email", "email_verified", "role"],
             resourceServers := [("demo-client", "user")] }, rfl, rfl, rfl⟩

/-- Witness for `C8_login_role_gate`: a wrong password is rejected as
invalid credentials even though the user has a role mapping for the
client. -/
theorem C8_login_role_gate_witness :
    interactionLoginPost users userAppRoles "user1" "wrong" "demo-client" none none
      = .invalidCredentials :=
  (C8_login_role_gate users userAppRoles "user1" "wrong" "demo-client" none none).1 rfl

end OidcDemo
